import Mathlib

/-!
Verification of the creational-pattern demo repository (Python).

Shallow embedding of the two source files:
  * `Creational-Patterns/Builder.py`         (namespace `BuilderDemo`)
  * `Creational-Patterns/AbstractFactory.py` (namespace `FactoryDemo`)

Python objects are modelled as Lean structures; mutating methods become
state-passing functions.  A Python call that raises is modelled as
`Except PyErr`: accessing an attribute that was never assigned (or an
attribute of `None`) raises `AttributeError`, and calling a method with
fewer positional arguments than its signature requires raises `TypeError`.
Python `float` literals (only ever stored and returned, never computed
with) are modelled as exact rationals.  Python `str` of an `int` is
modelled by `toString : Int → String`, which agrees with Python on all
integers.
-/

/-- The two kinds of Python exception the demo code can actually raise. -/
inductive PyErr where
  | attributeError
  | typeError
deriving DecidableEq

namespace BuilderDemo

/-- `class Milktea(ABC)` from `Builder.py`.  The class attributes
`_topping = "boba"`, `_tea = "regular_milktea"`, `_sugar = 100` are read
until an instance assignment shadows them; since the code only ever
assigns through `self._product.<field> = ...`, modelling them as
instance fields initialised to the class defaults is faithful.
`__init__` sets `self.price = 7.0`. -/
structure Milktea where
  price : ℚ
  _topping : String := "boba"
  _tea : String := "regular_milktea"
  _sugar : Int := 100
deriving DecidableEq

/-- `Milktea()` — the base class is instantiable (it declares no
abstract method); `__init__` sets `price = 7.0`. -/
def Milktea.new : Milktea := { price := 7 }

/-- `SignatureMilkTea()`: `__init__` sets `price = 5.7`. -/
def SignatureMilkTea.new : Milktea := { price := 57 / 10 }

/-- `OolongMilktea()`: `__init__` sets `price = 4.5`. -/
def OolongMilktea.new : Milktea := { price := 45 / 10 }

/-- `Milktea.get_price` returns `self.price`. -/
def Milktea.get_price (m : Milktea) : ℚ := m.price

/-- `class SignatureMilkteaBuilder`.  The `_product` attribute does not
exist before the first `reset`; reading it then raises
`AttributeError`, modelled by `none`. -/
structure SignatureMilkteaBuilder where
  _product : Option Milktea := none
deriving DecidableEq

/-- `class OolongMilkteaBuilder`, same attribute layout. -/
structure OolongMilkteaBuilder where
  _product : Option Milktea := none
deriving DecidableEq

/-- `class CustomizedMilkteaBuilder` declares a class attribute
`_product: Milktea = None`; reading a field of `None` raises
`AttributeError`, so `none` models the pre-`reset` state here too. -/
structure CustomizedMilkteaBuilder where
  _product : Option Milktea := none
deriving DecidableEq

/-- `SignatureMilkteaBuilder.reset`: `self._product = SignatureMilkTea()`. -/
def SignatureMilkteaBuilder.reset (_ : SignatureMilkteaBuilder) :
    SignatureMilkteaBuilder :=
  { _product := some SignatureMilkTea.new }

/-- `SignatureMilkteaBuilder.add_topping`: `self._product._topping = "boba"`. -/
def SignatureMilkteaBuilder.add_topping (b : SignatureMilkteaBuilder) :
    Except PyErr SignatureMilkteaBuilder :=
  match b._product with
  | none => .error .attributeError
  | some p => .ok { _product := some { p with _topping := "boba" } }

/-- `SignatureMilkteaBuilder.add_tea`: `self._product._tea = "signature tea"`. -/
def SignatureMilkteaBuilder.add_tea (b : SignatureMilkteaBuilder) :
    Except PyErr SignatureMilkteaBuilder :=
  match b._product with
  | none => .error .attributeError
  | some p => .ok { _product := some { p with _tea := "signature tea" } }

/-- `SignatureMilkteaBuilder.add_sugar_level`: `self._product._sugar = 100`. -/
def SignatureMilkteaBuilder.add_sugar_level (b : SignatureMilkteaBuilder) :
    Except PyErr SignatureMilkteaBuilder :=
  match b._product with
  | none => .error .attributeError
  | some p => .ok { _product := some { p with _sugar := 100 } }

/-- `SignatureMilkteaBuilder.get_product`: a single `return` of the
f-string, no assignment, so the builder state comes back unchanged. -/
def SignatureMilkteaBuilder.get_product (b : SignatureMilkteaBuilder) :
    Except PyErr (String × SignatureMilkteaBuilder) :=
  match b._product with
  | none => .error .attributeError
  | some p =>
      .ok ("Signature milktea:  " ++ p._topping ++ " " ++ p._tea ++ " "
            ++ toString p._sugar, b)

/-- `OolongMilkteaBuilder.reset`: `self._product = OolongMilktea()`. -/
def OolongMilkteaBuilder.reset (_ : OolongMilkteaBuilder) :
    OolongMilkteaBuilder :=
  { _product := some OolongMilktea.new }

/-- `OolongMilkteaBuilder.add_topping`: sets `'grass jelly'`. -/
def OolongMilkteaBuilder.add_topping (b : OolongMilkteaBuilder) :
    Except PyErr OolongMilkteaBuilder :=
  match b._product with
  | none => .error .attributeError
  | some p => .ok { _product := some { p with _topping := "grass jelly" } }

/-- `OolongMilkteaBuilder.add_tea`: sets `'oolong'`. -/
def OolongMilkteaBuilder.add_tea (b : OolongMilkteaBuilder) :
    Except PyErr OolongMilkteaBuilder :=
  match b._product with
  | none => .error .attributeError
  | some p => .ok { _product := some { p with _tea := "oolong" } }

/-- `OolongMilkteaBuilder.add_sugar_level`: sets `50`. -/
def OolongMilkteaBuilder.add_sugar_level (b : OolongMilkteaBuilder) :
    Except PyErr OolongMilkteaBuilder :=
  match b._product with
  | none => .error .attributeError
  | some p => .ok { _product := some { p with _sugar := 50 } }

/-- `OolongMilkteaBuilder.get_product`, pure read. -/
def OolongMilkteaBuilder.get_product (b : OolongMilkteaBuilder) :
    Except PyErr (String × OolongMilkteaBuilder) :=
  match b._product with
  | none => .error .attributeError
  | some p =>
      .ok ("Oolong milktea:     " ++ p._topping ++ " " ++ p._tea ++ " "
            ++ toString p._sugar, b)

/-- `CustomizedMilkteaBuilder.reset`: `self._product = Milktea()`. -/
def CustomizedMilkteaBuilder.reset (_ : CustomizedMilkteaBuilder) :
    CustomizedMilkteaBuilder :=
  { _product := some Milktea.new }

/-- `CustomizedMilkteaBuilder.add_topping(self, topping)`: one required
positional argument. -/
def CustomizedMilkteaBuilder.add_topping (b : CustomizedMilkteaBuilder)
    (topping : String) : Except PyErr CustomizedMilkteaBuilder :=
  match b._product with
  | none => .error .attributeError
  | some p => .ok { _product := some { p with _topping := topping } }

/-- `CustomizedMilkteaBuilder.add_tea(self, tea)`. -/
def CustomizedMilkteaBuilder.add_tea (b : CustomizedMilkteaBuilder)
    (tea : String) : Except PyErr CustomizedMilkteaBuilder :=
  match b._product with
  | none => .error .attributeError
  | some p => .ok { _product := some { p with _tea := tea } }

/-- `CustomizedMilkteaBuilder.add_sugar_level(self, sugar_level)`. -/
def CustomizedMilkteaBuilder.add_sugar_level (b : CustomizedMilkteaBuilder)
    (sugar_level : Int) : Except PyErr CustomizedMilkteaBuilder :=
  match b._product with
  | none => .error .attributeError
  | some p => .ok { _product := some { p with _sugar := sugar_level } }

/-- `CustomizedMilkteaBuilder.get_product`, pure read. -/
def CustomizedMilkteaBuilder.get_product (b : CustomizedMilkteaBuilder) :
    Except PyErr (String × CustomizedMilkteaBuilder) :=
  match b._product with
  | none => .error .attributeError
  | some p =>
      .ok ("Customized milktea: " ++ p._topping ++ " " ++ p._tea ++ " "
            ++ toString p._sugar, b)

/-- The dynamic type of the builder held by the director: one of the
three concrete `MilkteaBuilder` subclasses, with its state. -/
inductive MBuilder where
  | signature (b : SignatureMilkteaBuilder)
  | oolong (b : OolongMilkteaBuilder)
  | customized (b : CustomizedMilkteaBuilder)
deriving DecidableEq

/-- Dynamic dispatch of the zero-argument call `builder.reset()` as the
director performs it; every subclass's `reset` takes no argument and
cannot fail. -/
def MBuilder.reset : MBuilder → MBuilder
  | .signature b => .signature b.reset
  | .oolong b => .oolong b.reset
  | .customized b => .customized b.reset

/-- Dynamic dispatch of `builder.add_topping()` with zero arguments.
`CustomizedMilkteaBuilder.add_topping` requires one positional
argument, so on that subclass the call itself raises `TypeError`
before the body runs. -/
def MBuilder.add_topping0 : MBuilder → Except PyErr MBuilder
  | .signature b => Except.map .signature b.add_topping
  | .oolong b => Except.map .oolong b.add_topping
  | .customized _ => .error .typeError

/-- Dynamic dispatch of `builder.add_tea()` with zero arguments. -/
def MBuilder.add_tea0 : MBuilder → Except PyErr MBuilder
  | .signature b => Except.map .signature b.add_tea
  | .oolong b => Except.map .oolong b.add_tea
  | .customized _ => .error .typeError

/-- Dynamic dispatch of `builder.add_sugar_level()` with zero arguments. -/
def MBuilder.add_sugar_level0 : MBuilder → Except PyErr MBuilder
  | .signature b => Except.map .signature b.add_sugar_level
  | .oolong b => Except.map .oolong b.add_sugar_level
  | .customized _ => .error .typeError

/-- Dynamic dispatch of `builder.get_product()` (zero arguments in every
subclass). -/
def MBuilder.get_product0 : MBuilder → Except PyErr (String × MBuilder)
  | .signature b => Except.map (fun p => (p.1, .signature p.2)) b.get_product
  | .oolong b => Except.map (fun p => (p.1, .oolong p.2)) b.get_product
  | .customized b => Except.map (fun p => (p.1, .customized p.2)) b.get_product

/-- `class MilkteaDirector`: holds the currently active builder. -/
structure MilkteaDirector where
  _milktea_builder : MBuilder
deriving DecidableEq

/-- `MilkteaDirector.change_builder(builder)`. -/
def MilkteaDirector.change_builder (_ : MilkteaDirector) (builder : MBuilder) :
    MilkteaDirector :=
  { _milktea_builder := builder }

/-- `MilkteaDirector.make_milktea`: `reset(); add_topping(); add_tea();
add_sugar_level(); return get_product()` against the active builder. -/
def MilkteaDirector.make_milktea (d : MilkteaDirector) :
    Except PyErr (String × MilkteaDirector) := do
  let b := d._milktea_builder.reset
  let b ← b.add_topping0
  let b ← b.add_tea0
  let b ← b.add_sugar_level0
  let (s, b) ← b.get_product0
  return (s, { _milktea_builder := b })

/-- `MilkteaDirector.make(type)`: dispatch on the string, install a
fresh builder, then `make_milktea`. -/
def MilkteaDirector.make (d : MilkteaDirector) (type : String) :
    Except PyErr (String × MilkteaDirector) :=
  if type == "signature" then
    (d.change_builder (.signature {})).make_milktea
  else if type == "oolong" then
    (d.change_builder (.oolong {})).make_milktea
  else
    (d.change_builder (.customized {})).make_milktea

/-- The string `make` returns, discarding the director's final state. -/
def MilkteaDirector.makeStr (d : MilkteaDirector) (type : String) :
    Except PyErr String :=
  Except.map Prod.fst (d.make type)

/-- The manual five-call sequence of the `__main__` demo on a fresh
`SignatureMilkteaBuilder`:
`reset(); add_topping(); add_tea(); add_sugar_level(); get_product()`. -/
def manualSignatureRun : Except PyErr String := do
  let b : SignatureMilkteaBuilder := {}
  let b := b.reset
  let b ← b.add_topping
  let b ← b.add_tea
  let b ← b.add_sugar_level
  let (s, _) ← b.get_product
  return s

/-- The same manual five-call sequence on a fresh `OolongMilkteaBuilder`. -/
def manualOolongRun : Except PyErr String := do
  let b : OolongMilkteaBuilder := {}
  let b := b.reset
  let b ← b.add_topping
  let b ← b.add_tea
  let b ← b.add_sugar_level
  let (s, _) ← b.get_product
  return s

/-- Lines 174–179 of `Builder.py`: fresh `CustomizedMilkteaBuilder`,
`reset()`, `add_topping("boba")`, `add_tea("Oolong")`,
`add_sugar_level(10)`, `get_product()`. -/
def customizedDemoRun : Except PyErr String := do
  let b : CustomizedMilkteaBuilder := {}
  let b := b.reset
  let b ← b.add_topping "boba"
  let b ← b.add_tea "Oolong"
  let b ← b.add_sugar_level 10
  let (s, _) ← b.get_product
  return s

/-- The price, if any, of the product a builder state currently holds. -/
def productPrice : Option Milktea → Option ℚ :=
  Option.map Milktea.price

/-- The `_product` attribute of whichever concrete builder is behind the
dynamic reference. -/
def MBuilder.productOpt : MBuilder → Option Milktea
  | .signature b => b._product
  | .oolong b => b._product
  | .customized b => b._product

end BuilderDemo

namespace FactoryDemo

/-- The concrete `Sedan` subclasses of `AbstractFactory.py`. -/
inductive Sedan where
  | bmwM5
  | teslaModelS
deriving DecidableEq

/-- The concrete `SUV` subclasses. -/
inductive SUV where
  | bmwX5
  | teslaModelX
deriving DecidableEq

/-- `turn_on_head_light` on a sedan: its one observable effect is the
line it prints, modelled as the returned string. -/
def Sedan.turn_on_head_light : Sedan → String
  | .bmwM5 => "BMW M5:        Turn on head light."
  | .teslaModelS => "Tesla Model S: Turn on head light."

/-- `turn_on_head_light` on an SUV. -/
def SUV.turn_on_head_light : SUV → String
  | .bmwX5 => "BMW X5:        Turn on head light."
  | .teslaModelX => "Tesla Model X: Turn on head light."

/-- The concrete `CarFactory` subclasses (`BMWFactory`, `TeslaFactory`);
both are stateless, so a value of this type is a factory instance. -/
inductive CarFactory where
  | bmwFactory
  | teslaFactory
deriving DecidableEq, Fintype

/-- `create_sedan` of each factory. -/
def CarFactory.create_sedan : CarFactory → Sedan
  | .bmwFactory => .bmwM5
  | .teslaFactory => .teslaModelS

/-- `create_SUV` of each factory. -/
def CarFactory.create_SUV : CarFactory → SUV
  | .bmwFactory => .bmwX5
  | .teslaFactory => .teslaModelX

/-- The brand name a factory stands for, as it appears in the printed
lines. -/
def CarFactory.brand : CarFactory → String
  | .bmwFactory => "BMW"
  | .teslaFactory => "Tesla"

/-- `class BrandBooth`: holds the sedan and SUV obtained from one
factory at construction. -/
structure BrandBooth where
  sedan : Sedan
  suv : SUV
deriving DecidableEq

/-- `BrandBooth.__init__(factory)`. -/
def BrandBooth.new (factory : CarFactory) : BrandBooth :=
  { sedan := factory.create_sedan, suv := factory.create_SUV }

/-- `BrandBooth.show_head_light`: the sedan's line, then the SUV's. -/
def BrandBooth.show_head_light (b : BrandBooth) : List String :=
  [b.sedan.turn_on_head_light, b.suv.turn_on_head_light]

/-- The `__main__` block of `AbstractFactory.py`: the BMW booth's lines
followed by the Tesla booth's lines, in print order. -/
def factoryMainOutput : List String :=
  (BrandBooth.new .bmwFactory).show_head_light
    ++ (BrandBooth.new .teslaFactory).show_head_light

/-- `chListLeads needle hay`: `needle` occurs at the start of `hay`. -/
def chListLeads : List Char → List Char → Bool
  | [], _ => true
  | _ :: _, [] => false
  | a :: as, b :: bs => a == b && chListLeads as bs

/-- `chListHas needle hay`: `needle` occurs contiguously inside `hay`. -/
def chListHas (needle : List Char) : List Char → Bool
  | [] => chListLeads needle []
  | c :: cs => chListLeads needle (c :: cs) || chListHas needle cs

/-- `strHasSub hay needle`: `needle` is a contiguous substring of `hay`. -/
def strHasSub (hay needle : String) : Bool :=
  chListHas needle.data hay.data

end FactoryDemo

open BuilderDemo FactoryDemo

/-- C5: on a `CustomizedMilkteaBuilder`, the sequence `reset()`,
`add_topping("boba")`, `add_tea("Oolong")`, `add_sugar_level(10)`,
`get_product()` returns exactly `"Customized milktea: boba Oolong 10"`. -/
theorem c5_customized_demo_output :
    customizedDemoRun = Except.ok "Customized milktea: boba Oolong 10" := rfl

/-- C6: on a `SignatureMilkteaBuilder`, the default full sequence
`reset()`, `add_topping()`, `add_tea()`, `add_sugar_level()`,
`get_product()` returns exactly
`"Signature milktea:  boba signature tea 100"` (two spaces after the
colon). -/
theorem c6_signature_default_output :
    manualSignatureRun = Except.ok "Signature milktea:  boba signature tea 100" :=
  rfl

/-- C7: for every builder, `reset()` followed immediately by
`get_product()` renders that builder's fixed format with the product's
class-default field values `topping = "boba"`, `tea = "regular_milktea"`,
`sugar = 100`, whatever state the builder held before. -/
theorem c7_reset_then_get_defaults :
    (∀ b : SignatureMilkteaBuilder,
      Except.map Prod.fst b.reset.get_product
        = Except.ok "Signature milktea:  boba regular_milktea 100") ∧
    (∀ b : OolongMilkteaBuilder,
      Except.map Prod.fst b.reset.get_product
        = Except.ok "Oolong milktea:     boba regular_milktea 100") ∧
    (∀ b : CustomizedMilkteaBuilder,
      Except.map Prod.fst b.reset.get_product
        = Except.ok "Customized milktea: boba regular_milktea 100") :=
  ⟨fun _ => rfl, fun _ => rfl, fun _ => rfl⟩

/-- C3: for any director state, `make("signature")` returns exactly the
string of the manual five-call sequence on a fresh
`SignatureMilkteaBuilder`, and `make("oolong")` likewise matches the
manual sequence on a fresh `OolongMilkteaBuilder`. -/
theorem c3_make_equals_manual_sequence (d : MilkteaDirector) :
    d.makeStr "signature" = manualSignatureRun ∧
    d.makeStr "oolong" = manualOolongRun :=
  ⟨rfl, rfl⟩

/-- C8: on every builder, each build step overwrites its field, so
running the same step twice in a row is the same as running it once with
the last value; for the customized builder this holds for all argument
pairs. -/
theorem c8_last_write_wins :
    (∀ b : SignatureMilkteaBuilder,
      (b.add_topping >>= SignatureMilkteaBuilder.add_topping) = b.add_topping ∧
      (b.add_tea >>= SignatureMilkteaBuilder.add_tea) = b.add_tea ∧
      (b.add_sugar_level >>= SignatureMilkteaBuilder.add_sugar_level)
        = b.add_sugar_level) ∧
    (∀ b : OolongMilkteaBuilder,
      (b.add_topping >>= OolongMilkteaBuilder.add_topping) = b.add_topping ∧
      (b.add_tea >>= OolongMilkteaBuilder.add_tea) = b.add_tea ∧
      (b.add_sugar_level >>= OolongMilkteaBuilder.add_sugar_level)
        = b.add_sugar_level) ∧
    (∀ (b : CustomizedMilkteaBuilder) (x y : String) (s t : Int),
      (b.add_topping x >>= fun c => c.add_topping y) = b.add_topping y ∧
      (b.add_tea x >>= fun c => c.add_tea y) = b.add_tea y ∧
      (b.add_sugar_level s >>= fun c => c.add_sugar_level t)
        = b.add_sugar_level t) := by
  refine ⟨fun b => ?_, fun b => ?_, fun b x y s t => ?_⟩ <;>
    obtain ⟨op⟩ := b <;> cases op <;> exact ⟨rfl, rfl, rfl⟩

/-- C9: `get_product` leaves the builder's state untouched: the state it
hands back is the very state it was called on, and an immediate second
`get_product` returns the same result. -/
theorem c9_get_product_is_pure_read :
    ∀ mb : MBuilder,
      mb.get_product0 = Except.map (fun p => (p.1, mb)) mb.get_product0 ∧
      (mb.get_product0 >>= fun p => p.2.get_product0) = mb.get_product0 := by
  intro mb
  cases mb <;> rename_i b <;> obtain ⟨op⟩ := b <;> cases op <;> exact ⟨rfl, rfl⟩

/-- C1 counterexample: at the concrete kind `"matcha"` (neither
`"signature"` nor `"oolong"`), `make` does not return the claimed
default description — the zero-argument `add_topping()` call on the
freshly selected `CustomizedMilkteaBuilder` raises `TypeError`. -/
theorem c1_counterexample :
    (MilkteaDirector.mk (.signature {})).makeStr "matcha"
        = Except.error PyErr.typeError ∧
    (Except.error PyErr.typeError : Except PyErr String)
        ≠ Except.ok "Customized milktea: boba regular_milktea 100" :=
  ⟨rfl, fun h => Except.noConfusion h⟩

/-- C1 (amended): for every kind other than `"signature"` and
`"oolong"`, `make` selects a fresh `CustomizedMilkteaBuilder` and starts
the fixed sequence, but the director's zero-argument `add_topping()`
call raises `TypeError` (one required positional argument is missing),
so no description is produced. -/
theorem c1_make_other_kind_raises (d : MilkteaDirector) (type : String)
    (h1 : type ≠ "signature") (h2 : type ≠ "oolong") :
    d.make type = Except.error PyErr.typeError := by
  have e1 : (type == "signature") = false := beq_eq_false_iff_ne.mpr h1
  have e2 : (type == "oolong") = false := beq_eq_false_iff_ne.mpr h2
  simp only [MilkteaDirector.make, e1, e2]
  rfl

/-- C1 witness: the amended statement instantiated at kind `"matcha"`. -/
theorem c1_make_other_kind_raises_witness :
    "matcha" ≠ "signature" ∧ "matcha" ≠ "oolong" ∧
    (MilkteaDirector.mk (.signature {})).make "matcha"
        = Except.error PyErr.typeError :=
  ⟨by decide, by decide,
    c1_make_other_kind_raises (MilkteaDirector.mk (.signature {})) "matcha"
      (by decide) (by decide)⟩

/-- C2 counterexample: calling `get_product()` on a freshly constructed
builder, before any `reset()`, does signal a failure — it raises
`AttributeError` (`_product` is `None` on the customized builder and
does not exist at all on the signature builder). -/
theorem c2_counterexample :
    ({} : CustomizedMilkteaBuilder).get_product
        = Except.error PyErr.attributeError ∧
    ({} : SignatureMilkteaBuilder).get_product
        = Except.error PyErr.attributeError :=
  ⟨rfl, rfl⟩

/-- C2 (amended): any sugar level, including out-of-range values such as
negatives, is accepted without validation and propagates verbatim into
the rendered result; but calling `get_product()` before any `reset()`
raises `AttributeError` on every builder rather than completing. -/
theorem c2_no_validation_but_early_get_raises :
    (∀ (b : CustomizedMilkteaBuilder) (s : Int),
      (b.reset.add_sugar_level s >>= fun c => Except.map Prod.fst c.get_product)
        = Except.ok ("Customized milktea: boba regular_milktea " ++ toString s)) ∧
    ({} : CustomizedMilkteaBuilder).get_product
        = Except.error PyErr.attributeError ∧
    ({} : SignatureMilkteaBuilder).get_product
        = Except.error PyErr.attributeError ∧
    ({} : OolongMilkteaBuilder).get_product
        = Except.error PyErr.attributeError :=
  ⟨fun _ _ => rfl, rfl, rfl, rfl⟩

/-- C4: the Abstract Factory demo prints, in order, the BMW sedan, BMW
SUV, Tesla sedan, and Tesla SUV light-on lines; and for every factory,
every line a booth built from it shows contains that factory's brand and
never the brand of a different factory. -/
theorem c4_brand_consistency :
    factoryMainOutput =
      ["BMW M5:        Turn on head light.",
       "BMW X5:        Turn on head light.",
       "Tesla Model S: Turn on head light.",
       "Tesla Model X: Turn on head light."] ∧
    ∀ f : CarFactory, ∀ line ∈ (BrandBooth.new f).show_head_light,
      strHasSub line f.brand = true ∧
        ∀ g : CarFactory, g ≠ f → strHasSub line g.brand = false := by
  refine ⟨rfl, ?_⟩
  decide

/-- C4 witness: the brand-consistency statement instantiated at the BMW
factory, its sedan line, and the Tesla factory as the mismatched brand. -/
theorem c4_brand_consistency_witness :
    "BMW M5:        Turn on head light."
        ∈ (BrandBooth.new CarFactory.bmwFactory).show_head_light ∧
    CarFactory.teslaFactory ≠ CarFactory.bmwFactory ∧
    strHasSub "BMW M5:        Turn on head light."
        (CarFactory.brand CarFactory.bmwFactory) = true ∧
    strHasSub "BMW M5:        Turn on head light."
        (CarFactory.brand CarFactory.teslaFactory) = false := by
  have h := c4_brand_consistency.2 CarFactory.bmwFactory
      "BMW M5:        Turn on head light." (by decide)
  exact ⟨by decide, by decide, h.1, h.2 CarFactory.teslaFactory (by decide)⟩

/-- C10: the three product constructors fix the price at 7.0, 5.7 and
4.5 (exact rationals model the Python float literals); every builder
step and every `get_product` call leaves the held product's price
unchanged; and the rendered description never depends on the price. -/
theorem c10_price_model :
    Milktea.new.get_price = 7 ∧
    SignatureMilkTea.new.get_price = 57 / 10 ∧
    OolongMilktea.new.get_price = 45 / 10 ∧
    (∀ b : SignatureMilkteaBuilder,
      Except.map (fun c => productPrice c._product) b.add_topping
        = Except.map (fun _ => productPrice b._product) b.add_topping ∧
      Except.map (fun c => productPrice c._product) b.add_tea
        = Except.map (fun _ => productPrice b._product) b.add_tea ∧
      Except.map (fun c => productPrice c._product) b.add_sugar_level
        = Except.map (fun _ => productPrice b._product) b.add_sugar_level) ∧
    (∀ b : OolongMilkteaBuilder,
      Except.map (fun c => productPrice c._product) b.add_topping
        = Except.map (fun _ => productPrice b._product) b.add_topping ∧
      Except.map (fun c => productPrice c._product) b.add_tea
        = Except.map (fun _ => productPrice b._product) b.add_tea ∧
      Except.map (fun c => productPrice c._product) b.add_sugar_level
        = Except.map (fun _ => productPrice b._product) b.add_sugar_level) ∧
    (∀ (b : CustomizedMilkteaBuilder) (x : String) (s : Int),
      Except.map (fun c => productPrice c._product) (b.add_topping x)
        = Except.map (fun _ => productPrice b._product) (b.add_topping x) ∧
      Except.map (fun c => productPrice c._product) (b.add_tea x)
        = Except.map (fun _ => productPrice b._product) (b.add_tea x) ∧
      Except.map (fun c => productPrice c._product) (b.add_sugar_level s)
        = Except.map (fun _ => productPrice b._product) (b.add_sugar_level s)) ∧
    (∀ mb : MBuilder,
      Except.map (fun q => productPrice q.2.productOpt) mb.get_product0
        = Except.map (fun _ => productPrice mb.productOpt) mb.get_product0) ∧
    (∀ (p : Milktea) (c : ℚ),
      Except.map Prod.fst
          (SignatureMilkteaBuilder.get_product ⟨some { p with price := c }⟩)
        = Except.map Prod.fst (SignatureMilkteaBuilder.get_product ⟨some p⟩) ∧
      Except.map Prod.fst
          (OolongMilkteaBuilder.get_product ⟨some { p with price := c }⟩)
        = Except.map Prod.fst (OolongMilkteaBuilder.get_product ⟨some p⟩) ∧
      Except.map Prod.fst
          (CustomizedMilkteaBuilder.get_product ⟨some { p with price := c }⟩)
        = Except.map Prod.fst (CustomizedMilkteaBuilder.get_product ⟨some p⟩)) := by
  refine ⟨rfl, rfl, rfl, fun b => ?_, fun b => ?_, fun b x s => ?_, fun mb => ?_,
    fun p c => ⟨rfl, rfl, rfl⟩⟩
  · obtain ⟨op⟩ := b; cases op <;> exact ⟨rfl, rfl, rfl⟩
  · obtain ⟨op⟩ := b; cases op <;> exact ⟨rfl, rfl, rfl⟩
  · obtain ⟨op⟩ := b; cases op <;> exact ⟨rfl, rfl, rfl⟩
  · cases mb <;> rename_i b <;> obtain ⟨op⟩ := b <;> cases op <;> rfl
